import Mathlib

/-!
Shallow embedding of the fastmcp-playground domain-gateway ("orchestrator").

Two variants of the gateway exist in the repository and are both modelled:
* `Simple`  — `orchestrator_final.py` (`SimpleDomainMiddleware`, set-based tool gating)
* `Scope`   — `src/orchestrator/orchestrator.py` (`DomainScopeMiddleware`, prefix-based gating)

The mutable `SESSION_DOMAIN` dict is modelled as an association list with
Python-dict update semantics (update in place, append new keys at the end).
Python truthiness of optional strings (`None` and `""` are falsy) is modelled
explicitly by `pyTruthy` / `pyOr`.
-/

/-- The session store `SESSION_DOMAIN : dict[str, str]`. -/
abbrev Store : Type := List (String × String)

/-- `dict.get`: first (unique) binding of a key. -/
def storeGet : Store → String → Option String
  | [], _ => none
  | (k, v) :: rest, s => if k = s then some v else storeGet rest s

/-- `dict[k] = v`: update the binding in place, or append a new one. -/
def storeSet : Store → String → String → Store
  | [], k, v => [(k, v)]
  | (k', v') :: rest, k, v =>
      if k' = k then (k, v) :: rest else (k', v') :: storeSet rest k v

/-- Python truthiness of an optional string: `None` and `""` are falsy. -/
def pyTruthy : Option String → Bool
  | none => false
  | some s => !(s == "")

/-- Python `a or b` for `a : Optional[str]`, `b : str`. -/
def pyOr (a : Option String) (b : String) : String :=
  match a with
  | none => b
  | some s => if s == "" then b else s

/-- The request context: transport-supplied session and client identifiers. -/
structure Ctx where
  session_id : Option String
  client_id : Option String
deriving DecidableEq

/-- `session_id = ctx.session_id or ctx.client_id or "default"` -/
def effectiveSessionId (c : Ctx) : String :=
  pyOr c.session_id (pyOr c.client_id "default")

/-- The static `DOMAINS` registry (domain name → backend URL). -/
def DOMAINS : List (String × String) :=
  [("invoicing", "http://127.0.0.1:9101/mcp"),
   ("products", "http://127.0.0.1:9102/mcp"),
   ("users", "http://127.0.0.1:9103/mcp")]

/-- `DOMAINS.keys()` in insertion order. -/
def domainKeys : List String := DOMAINS.map Prod.fst

/-- Lexicographic code-point comparison of character lists — Python `<=` on
    strings (kernel-reducible, unlike `String.decidableLE`). -/
def lexLe : List Char → List Char → Bool
  | [], _ => true
  | _ :: _, [] => false
  | a :: as, b :: bs =>
      if a.toNat < b.toNat then true
      else if b.toNat < a.toNat then false
      else lexLe as bs

/-- Python `a <= b` on strings. -/
def strLe (a b : String) : Bool := lexLe a.data b.data

/-- Python `s.startswith(p)` (kernel-reducible form of `String.startsWith`). -/
def strStartsWith (s p : String) : Bool := p.data.isPrefixOf s.data

/-- Insert into a `strLe`-sorted list of strings (one step of `sorted`). -/
def insortStr (x : String) : List String → List String
  | [] => [x]
  | y :: ys => if strLe x y then x :: y :: ys else y :: insortStr x ys

/-- Python `sorted` on strings (insertion sort; lexicographic order). -/
def sortStr : List String → List String
  | [] => []
  | x :: xs => insortStr x (sortStr xs)

/-- The built-in management tools, `ORCHESTRATOR_TOOLS` in both variants. -/
def ORCHESTRATOR_TOOLS : List String :=
  ["list_domains", "get_session_status", "select_domain"]

/-- `SimpleDomainMiddleware.DOMAIN_TOOLS`: domain → its qualified tool names. -/
def DOMAIN_TOOLS : List (String × List String) :=
  [("invoicing",
     ["invoicing_create_invoice", "invoicing_get_invoice", "invoicing_pay_invoice"]),
   ("products",
     ["products_create_product", "products_get_product", "products_list_products"]),
   ("users",
     ["users_create_user", "users_get_user", "users_list_users"])]

/-- Lookup a domain's tool set in `DOMAIN_TOOLS`. -/
def domainToolsOf (d : String) : Option (List String) :=
  DOMAIN_TOOLS.lookup d

/-- Notifications a tool handler can emit toward the client. -/
inductive Notification where
  | toolListChanged
  | resourceListChanged
  | promptListChanged
deriving DecidableEq

/-- Result of `select_domain` (structured form of the returned dict / raised error). -/
inductive SelectOutcome where
  /-- `{"status": "error", "message": f"Unknown domain: {domain}"}` /
      `ToolError(f"Invalid domain: ...")` — carries the offending domain name. -/
  | unknownDomain (domain : String)
  /-- `{"status": "success", "session_id": ..., "selected_domain": ..., ...}`. -/
  | success (session_id : String) (domain : String)
deriving DecidableEq

/-- Result of `get_session_status` (the returned dict). -/
structure SessionStatus where
  session_id : String
  selected_domain : Option String
  available_domains : List String
  status : String
deriving DecidableEq

/-- Outcome of the middleware `on_call_tool` interception. -/
inductive CallOutcome where
  /-- `return await call_next(ctx)` — forwarded for execution. -/
  | forward
  /-- `ToolExecutionError("No domain selected. Use select_domain first.")`. -/
  | rejectNoDomain
  /-- `ToolExecutionError(f"Tool ... not available in domain '{d}'. Available tools: ...")`
      — carries the selected domain and the sorted in-scope tool list it names. -/
  | rejectNotInScope (domain : String) (inScope : List String)
  /-- `DomainScopeMiddleware`'s single rejection, naming the tool and
      `SESSION_DOMAIN.get(session_id or "", "none")`. -/
  | rejectScope (tool : String) (currentDomain : String)
deriving DecidableEq

namespace Simple

/-- `list_domains` of `orchestrator_final.py`: `sorted(DOMAINS.keys())`. -/
def list_domains : List String := sortStr domainKeys

/-- `get_session_status` of `orchestrator_final.py`; reads the store, never writes. -/
def get_session_status (σ : Store) (c : Ctx) : SessionStatus × Store :=
  let sid := effectiveSessionId c
  let sel := storeGet σ sid
  ({ session_id := sid
     selected_domain := sel
     available_domains := sortStr domainKeys
     status := if pyTruthy sel then "active" else "no_domain_selected" }, σ)

/-- `select_domain` of `orchestrator_final.py`: validate, then write the store.
    It emits no notifications (third component always `[]`). -/
def select_domain (σ : Store) (c : Ctx) (domain : String) :
    SelectOutcome × Store × List Notification :=
  if domain ∈ domainKeys then
    let sid := effectiveSessionId c
    (.success sid domain, storeSet σ sid domain, [])
  else
    (.unknownDomain domain, σ, [])

/-- `SimpleDomainMiddleware.on_list_tools`: keep built-ins from the downstream
    catalog, then append the selected domain's tools (tools modelled by name). -/
def on_list_tools (σ : Store) (session_id : Option String)
    (all_tools : List String) : List String :=
  let filtered := all_tools.filter (fun t => t ∈ ORCHESTRATOR_TOOLS)
  if pyTruthy session_id then
    match storeGet σ (pyOr session_id "") with
    | some d =>
        match domainToolsOf d with
        | some names => filtered ++ all_tools.filter (fun t => t ∈ names)
        | none => filtered
    | none => filtered
  else
    filtered

/-- `SimpleDomainMiddleware.on_call_tool`: built-ins pass; otherwise require a
    selection and membership in the selected domain's tool set. -/
def on_call_tool (σ : Store) (session_id : Option String)
    (tool_name : String) : CallOutcome :=
  if tool_name ∈ ORCHESTRATOR_TOOLS then .forward
  else if pyTruthy session_id then
    match storeGet σ (pyOr session_id "") with
    | some d =>
        match domainToolsOf d with
        | some allowed =>
            if tool_name ∈ allowed then .forward
            else .rejectNotInScope d (sortStr allowed)
        | none => .forward
    | none => .rejectNoDomain
  else
    .rejectNoDomain

end Simple

namespace Scope

/-- `list_domains` of `src/orchestrator/orchestrator.py`: `sorted(DOMAINS.keys())`. -/
def list_domains : List String := sortStr domainKeys

/-- `get_session_status` of `src/orchestrator/orchestrator.py`; note it returns
    `list(DOMAINS.keys())` (insertion order, not re-sorted). -/
def get_session_status (σ : Store) (c : Ctx) : SessionStatus × Store :=
  let sid := effectiveSessionId c
  let sel := storeGet σ sid
  ({ session_id := sid
     selected_domain := sel
     available_domains := domainKeys
     status := if pyTruthy sel then "active" else "no_domain_selected" }, σ)

/-- `select_domain` of `src/orchestrator/orchestrator.py`: validate, write the
    store, then send tool/resource/prompt list-changed notifications. -/
def select_domain (σ : Store) (c : Ctx) (domain : String) :
    SelectOutcome × Store × List Notification :=
  let sid := effectiveSessionId c
  if domain ∈ domainKeys then
    (.success sid domain, storeSet σ sid domain,
     [.toolListChanged, .resourceListChanged, .promptListChanged])
  else
    (.unknownDomain domain, σ, [])

/-- `DomainScopeMiddleware._is_allowed_tool`: built-ins always pass; otherwise
    the tool name must start with `f"{selected_domain}_"`. -/
def is_allowed_tool (σ : Store) (tool_name : String) (session_id : Option String) :
    Bool :=
  if tool_name ∈ ORCHESTRATOR_TOOLS then true
  else if pyTruthy session_id then
    match storeGet σ (pyOr session_id "") with
    | some d => if d == "" then false else strStartsWith tool_name (d ++ "_")
    | none => false
  else
    false

/-- `DomainScopeMiddleware.on_list_tools`: one filter pass over the downstream
    catalog, preserving its order. -/
def on_list_tools (σ : Store) (session_id : Option String)
    (tools : List String) : List String :=
  tools.filter (fun t => is_allowed_tool σ t session_id)

/-- `DomainScopeMiddleware.on_call_tool`: forward when allowed, otherwise raise
    a `ToolError` naming the tool and `SESSION_DOMAIN.get(session_id or "", "none")`. -/
def on_call_tool (σ : Store) (session_id : Option String)
    (tool_name : String) : CallOutcome :=
  if is_allowed_tool σ tool_name session_id then .forward
  else
    .rejectScope tool_name ((storeGet σ (pyOr session_id "")).getD "none")

end Scope

/-!
Gateway operations as events, to reason about all reachable session stores.
Each event applies one operation's effect on `SESSION_DOMAIN`; the middleware
hooks and read-only tools are included so that frame properties quantify over
every operation the gateway performs.
-/

/-- One gateway operation (either variant). -/
inductive Op where
  | simpleSelect (c : Ctx) (domain : String)
  | scopeSelect (c : Ctx) (domain : String)
  | simpleStatus (c : Ctx)
  | scopeStatus (c : Ctx)
  | simpleListTools (session_id : Option String) (all_tools : List String)
  | scopeListTools (session_id : Option String) (tools : List String)
  | simpleCallTool (session_id : Option String) (tool_name : String)
  | scopeCallTool (session_id : Option String) (tool_name : String)
  | listDomains
deriving DecidableEq

/-- The store after one operation. Only `select_domain` writes the store; every
    other operation's definition returns it unchanged. -/
def applyOp (σ : Store) : Op → Store
  | .simpleSelect c d => (Simple.select_domain σ c d).2.1
  | .scopeSelect c d => (Scope.select_domain σ c d).2.1
  | .simpleStatus c => (Simple.get_session_status σ c).2
  | .scopeStatus c => (Scope.get_session_status σ c).2
  | .simpleListTools _ _ => σ
  | .scopeListTools _ _ => σ
  | .simpleCallTool _ _ => σ
  | .scopeCallTool _ _ => σ
  | .listDomains => σ

/-- The store after a sequence of operations. -/
def runOps (σ : Store) : List Op → Store
  | [] => σ
  | op :: rest => runOps (applyOp σ op) rest

/-- A store reachable from the empty store at gateway startup. -/
def Reachable (σ : Store) : Prop := ∃ ops : List Op, σ = runOps [] ops

/-! Basic lemmas about the store operations. -/

theorem storeGet_storeSet_self (σ : Store) (k v : String) :
    storeGet (storeSet σ k v) k = some v := by
  induction σ with
  | nil => simp [storeSet, storeGet]
  | cons p rest ih =>
      obtain ⟨k', v'⟩ := p
      by_cases h : k' = k
      · subst h; simp [storeSet, storeGet]
      · simp [storeSet, storeGet, h, ih]

theorem storeGet_storeSet_ne (σ : Store) (k v k' : String) (h : k' ≠ k) :
    storeGet (storeSet σ k v) k' = storeGet σ k' := by
  induction σ with
  | nil => simp [storeSet, storeGet, Ne.symm h]
  | cons p rest ih =>
      obtain ⟨k₀, v₀⟩ := p
      by_cases hk : k₀ = k
      · subst hk
        simp [storeSet, storeGet, Ne.symm h]
      · simp only [storeSet, if_neg hk, storeGet]
        by_cases hk' : k₀ = k'
        · simp [hk']
        · simp [hk', ih]

theorem storeSet_idem (σ : Store) (k v : String) :
    storeSet (storeSet σ k v) k v = storeSet σ k v := by
  induction σ with
  | nil => simp [storeSet]
  | cons p rest ih =>
      obtain ⟨k₀, v₀⟩ := p
      by_cases hk : k₀ = k
      · subst hk; simp [storeSet]
      · simp [storeSet, hk, ih]

theorem storeSet_lastWins (σ : Store) (k v₁ v₂ : String) :
    storeSet (storeSet σ k v₁) k v₂ = storeSet σ k v₂ := by
  induction σ with
  | nil => simp [storeSet]
  | cons p rest ih =>
      obtain ⟨k₀, v₀⟩ := p
      by_cases hk : k₀ = k
      · subst hk; simp [storeSet]
      · simp [storeSet, hk, ih]

theorem storeGet_mem (σ : Store) (s d : String) (h : storeGet σ s = some d) :
    (s, d) ∈ σ := by
  induction σ with
  | nil => simp [storeGet] at h
  | cons p rest ih =>
      obtain ⟨k, v⟩ := p
      by_cases hk : k = s
      · subst hk
        simp [storeGet] at h
        subst h
        exact List.mem_cons_self _ _
      · simp only [storeGet, if_neg hk] at h
        exact List.mem_cons_of_mem _ (ih h)

theorem strStartsWith_iff (s p : String) :
    strStartsWith s p = true ↔ ∃ r : String, s = p ++ r := by
  unfold strStartsWith
  rw [List.isPrefixOf_iff_prefix]
  constructor
  · rintro ⟨t, ht⟩
    refine ⟨⟨t⟩, String.ext ?_⟩
    rw [String.data_append]
    exact ht.symm
  · rintro ⟨r, rfl⟩
    exact ⟨r.data, (String.data_append p r).symm⟩

/-- Every stored selection is a registry key. -/
abbrev WFStore (σ : Store) : Prop := ∀ p ∈ σ, p.2 ∈ domainKeys

theorem WFStore_storeSet {σ : Store} {k v : String}
    (hσ : WFStore σ) (hv : v ∈ domainKeys) : WFStore (storeSet σ k v) := by
  induction σ with
  | nil =>
      intro p hp
      simp [storeSet] at hp
      subst hp; exact hv
  | cons q rest ih =>
      obtain ⟨k₀, v₀⟩ := q
      have hrest : WFStore rest := fun p hp => hσ p (List.mem_cons_of_mem _ hp)
      by_cases hk : k₀ = k
      · subst hk
        intro p hp
        simp only [storeSet, if_pos rfl] at hp
        rcases List.mem_cons.mp hp with h | h
        · subst h; exact hv
        · exact hrest p h
      · intro p hp
        simp only [storeSet, if_neg hk] at hp
        rcases List.mem_cons.mp hp with h | h
        · subst h; exact hσ _ (List.mem_cons_self _ _)
        · exact ih hrest p h

theorem WFStore_applyOp {σ : Store} (hσ : WFStore σ) (op : Op) :
    WFStore (applyOp σ op) := by
  cases op with
  | simpleSelect c d =>
      simp only [applyOp, Simple.select_domain]
      by_cases h : d ∈ domainKeys
      · simpa [h] using WFStore_storeSet hσ h
      · simpa [h] using hσ
  | scopeSelect c d =>
      simp only [applyOp, Scope.select_domain]
      by_cases h : d ∈ domainKeys
      · simpa [h] using WFStore_storeSet hσ h
      · simpa [h] using hσ
  | simpleStatus c => simpa [applyOp, Simple.get_session_status] using hσ
  | scopeStatus c => simpa [applyOp, Scope.get_session_status] using hσ
  | simpleListTools s ts => simpa [applyOp] using hσ
  | scopeListTools s ts => simpa [applyOp] using hσ
  | simpleCallTool s t => simpa [applyOp] using hσ
  | scopeCallTool s t => simpa [applyOp] using hσ
  | listDomains => simpa [applyOp] using hσ

theorem WFStore_runOps {σ : Store} (hσ : WFStore σ) (ops : List Op) :
    WFStore (runOps σ ops) := by
  induction ops generalizing σ with
  | nil => simpa [runOps] using hσ
  | cons op rest ih => exact ih (WFStore_applyOp hσ op)

theorem WFStore_reachable {σ : Store} (h : Reachable σ) : WFStore σ := by
  obtain ⟨ops, rfl⟩ := h
  exact WFStore_runOps (fun p hp => absurd hp (List.not_mem_nil p)) ops

/-! Helper facts about the concrete registry and tool tables. -/

/-- The tool set of a domain (empty for a non-registry name). -/
def toolsOf (d : String) : List String := (domainToolsOf d).getD []

theorem mem_domainKeys_iff (d : String) :
    d ∈ domainKeys ↔ d = "invoicing" ∨ d = "products" ∨ d = "users" := by
  simp [domainKeys, DOMAINS]

theorem domainToolsOf_eq {d : String} (hd : d ∈ domainKeys) :
    domainToolsOf d = some (toolsOf d) := by
  rcases (mem_domainKeys_iff d).mp hd with rfl | rfl | rfl <;> decide

theorem ne_empty_of_mem_domainKeys {d : String} (hd : d ∈ domainKeys) : d ≠ "" := by
  rcases (mem_domainKeys_iff d).mp hd with rfl | rfl | rfl <;> decide

theorem domain_tools_disjoint :
    ∀ d₁ ∈ domainKeys, ∀ d₂ ∈ domainKeys, d₁ ≠ d₂ →
      ∀ t ∈ toolsOf d₂, t ∉ ORCHESTRATOR_TOOLS ∧ t ∉ toolsOf d₁ ∧
        strStartsWith t (d₁ ++ "_") = false := by
  decide

/-- Distinct registry domains have incompatible qualified-name prefixes: no
operation name can start with both `d₁ ++ "_"` and `d₂ ++ "_"`. -/
theorem domain_qualifier_incompat :
    ∀ d₁ ∈ domainKeys, ∀ d₂ ∈ domainKeys, d₁ ≠ d₂ →
      ∀ t : String, strStartsWith t (d₂ ++ "_") = true →
        strStartsWith t (d₁ ++ "_") = false := by
  intro d₁ hd₁ d₂ hd₂ hne t h₂
  by_contra h₁
  rw [Bool.not_eq_false] at h₁
  simp only [strStartsWith] at h₁ h₂
  have p₁ := List.isPrefixOf_iff_prefix.mp h₁
  have p₂ := List.isPrefixOf_iff_prefix.mp h₂
  have hor := List.prefix_or_prefix_of_prefix p₁ p₂
  rcases (mem_domainKeys_iff d₁).mp hd₁ with rfl | rfl | rfl <;>
    rcases (mem_domainKeys_iff d₂).mp hd₂ with rfl | rfl | rfl <;>
      first
        | exact hne rfl
        | (rcases hor with h | h <;>
            rw [← List.isPrefixOf_iff_prefix] at h <;> revert h <;> decide)

/-- No built-in management tool carries a registry domain's qualifier. -/
theorem builtin_not_qualified :
    ∀ d ∈ domainKeys, ∀ b ∈ ORCHESTRATOR_TOOLS, strStartsWith b (d ++ "_") = false := by
  decide

/-!  ## The claims  -/

/-- C4: selecting a string that is not a registry key returns the
`UnknownDomain` failure and leaves the session store completely unchanged, in
both gateway variants; consequently, in every reachable store, every session's
selected domain is a key of the domain registry. -/
theorem c4_theorem :
    (∀ (σ : Store) (c : Ctx) (d : String), d ∉ domainKeys →
      Simple.select_domain σ c d = (.unknownDomain d, σ, [])) ∧
    (∀ (σ : Store) (c : Ctx) (d : String), d ∉ domainKeys →
      Scope.select_domain σ c d = (.unknownDomain d, σ, [])) ∧
    (∀ σ : Store, Reachable σ →
      ∀ s d : String, storeGet σ s = some d → d ∈ domainKeys) := by
  refine ⟨?_, ?_, ?_⟩
  · intro σ c d hd
    simp [Simple.select_domain, hd]
  · intro σ c d hd
    simp [Scope.select_domain, hd]
  · intro σ hσ s d hget
    exact WFStore_reachable hσ (s, d) (storeGet_mem σ s d hget)

theorem c4_witness :
    Simple.select_domain [("a", "users")] ⟨some "a", none⟩ "billing" =
      (.unknownDomain "billing", [("a", "users")], []) ∧
    Scope.select_domain [("a", "users")] ⟨some "a", none⟩ "billing" =
      (.unknownDomain "billing", [("a", "users")], []) ∧
    ("users" : String) ∈ domainKeys := by
  refine ⟨c4_theorem.1 [("a", "users")] ⟨some "a", none⟩ "billing" (by decide),
          c4_theorem.2.1 [("a", "users")] ⟨some "a", none⟩ "billing" (by decide),
          c4_theorem.2.2 [("a", "users")]
            ⟨[Op.simpleSelect ⟨some "a", none⟩ "users"], by decide⟩
            "a" "users" (by decide)⟩

/-- C10: domain selection is last-write-wins and idempotent — for one session
(two contexts resolving to the same session key), selecting `d₁` then `d₂`
leaves the store exactly as selecting only `d₂` would, and repeating the same
selection returns the same success confirmation and the same store as doing it
once. -/
theorem c10_theorem :
    ∀ (σ : Store) (c₁ c₂ : Ctx) (d₁ d₂ : String),
      effectiveSessionId c₁ = effectiveSessionId c₂ →
      d₁ ∈ domainKeys → d₂ ∈ domainKeys →
      (Simple.select_domain (Simple.select_domain σ c₁ d₁).2.1 c₂ d₂).2.1 =
        (Simple.select_domain σ c₂ d₂).2.1 ∧
      (Scope.select_domain (Scope.select_domain σ c₁ d₁).2.1 c₂ d₂).2.1 =
        (Scope.select_domain σ c₂ d₂).2.1 ∧
      Simple.select_domain (Simple.select_domain σ c₁ d₁).2.1 c₂ d₁ =
        Simple.select_domain σ c₂ d₁ := by
  intro σ c₁ c₂ d₁ d₂ hsid h₁ h₂
  refine ⟨?_, ?_, ?_⟩
  · simp [Simple.select_domain, h₁, h₂, hsid, storeSet_lastWins]
  · simp [Scope.select_domain, h₁, h₂, hsid, storeSet_lastWins]
  · simp [Simple.select_domain, h₁, hsid, storeSet_idem]

theorem c10_witness :
    (Simple.select_domain
        (Simple.select_domain [] ⟨some "a", none⟩ "users").2.1 ⟨some "a", some "x"⟩
        "products").2.1 =
      (Simple.select_domain [] ⟨some "a", some "x"⟩ "products").2.1 ∧
    (Scope.select_domain
        (Scope.select_domain [] ⟨some "a", none⟩ "users").2.1 ⟨some "a", some "x"⟩
        "products").2.1 =
      (Scope.select_domain [] ⟨some "a", some "x"⟩ "products").2.1 ∧
    Simple.select_domain
        (Simple.select_domain [] ⟨some "a", none⟩ "users").2.1 ⟨some "a", some "x"⟩
        "users" =
      Simple.select_domain [] ⟨some "a", some "x"⟩ "users" :=
  c10_theorem [] ⟨some "a", none⟩ ⟨some "a", some "x"⟩ "users" "products"
    (by decide) (by decide) (by decide)

/-- C9: a successful `select_domain` writes exactly the caller's session key and
preserves every other session's entry; `get_session_status` (both variants) is a
pure read returning the store unchanged, and querying a never-seen session
identifier reports no selection without creating an entry; the remaining
operations (`list_domains`, the middleware list/call hooks) carry no store
effect at all. -/
theorem c9_theorem :
    (∀ (σ : Store) (c : Ctx) (d : String), d ∈ domainKeys →
      storeGet (Simple.select_domain σ c d).2.1 (effectiveSessionId c) = some d ∧
      (∀ s : String, s ≠ effectiveSessionId c →
        storeGet (Simple.select_domain σ c d).2.1 s = storeGet σ s) ∧
      (Scope.select_domain σ c d).2.1 = (Simple.select_domain σ c d).2.1) ∧
    (∀ (σ : Store) (c : Ctx),
      (Simple.get_session_status σ c).2 = σ ∧ (Scope.get_session_status σ c).2 = σ) ∧
    (∀ (σ : Store) (c : Ctx), storeGet σ (effectiveSessionId c) = none →
      (Simple.get_session_status σ c).1.selected_domain = none ∧
      (Simple.get_session_status σ c).1.status = "no_domain_selected" ∧
      (Simple.get_session_status σ c).2 = σ) ∧
    (∀ (σ : Store) (sid : Option String) (ts : List String) (t : String),
      applyOp σ (.simpleListTools sid ts) = σ ∧ applyOp σ (.scopeListTools sid ts) = σ ∧
      applyOp σ (.simpleCallTool sid t) = σ ∧ applyOp σ (.scopeCallTool sid t) = σ ∧
      applyOp σ .listDomains = σ) := by
  refine ⟨?_, ?_, ?_, ?_⟩
  · intro σ c d hd
    refine ⟨?_, ?_, ?_⟩
    · simp [Simple.select_domain, hd, storeGet_storeSet_self]
    · intro s hs
      simp [Simple.select_domain, hd, storeGet_storeSet_ne _ _ _ _ hs]
    · simp [Simple.select_domain, Scope.select_domain, hd]
  · intro σ c
    exact ⟨rfl, rfl⟩
  · intro σ c hget
    refine ⟨?_, ?_, rfl⟩
    · simp [Simple.get_session_status, hget]
    · simp [Simple.get_session_status, hget, pyTruthy]
  · intro σ sid ts t
    exact ⟨rfl, rfl, rfl, rfl, rfl⟩

theorem c9_witness :
    (storeGet
        (Simple.select_domain [("b", "users")] ⟨some "a", none⟩ "invoicing").2.1 "a" =
      some "invoicing") ∧
    (storeGet
        (Simple.select_domain [("b", "users")] ⟨some "a", none⟩ "invoicing").2.1 "b" =
      storeGet [("b", "users")] "b") ∧
    ((Simple.get_session_status [("b", "users")] ⟨some "fresh", none⟩).1.selected_domain =
      none) ∧
    ((Simple.get_session_status [("b", "users")] ⟨some "fresh", none⟩).2 =
      [("b", "users")]) :=
  ⟨(c9_theorem.1 [("b", "users")] ⟨some "a", none⟩ "invoicing" (by decide)).1,
   (c9_theorem.1 [("b", "users")] ⟨some "a", none⟩ "invoicing" (by decide)).2.1 "b"
     (by decide),
   (c9_theorem.2.2.1 [("b", "users")] ⟨some "fresh", none⟩ (by decide)).1,
   (c9_theorem.2.2.1 [("b", "users")] ⟨some "fresh", none⟩ (by decide)).2.2⟩

/-- C5: invoking any built-in operation is forwarded for direct execution in
every session state, in both middleware variants; invoking a non-built-in
operation when the caller's session has no selection (no session id, falsy
session id, or no store entry) is rejected — with the `NoDomainSelected` error
in the final variant — and never forwarded to a backend. -/
theorem c5_theorem :
    (∀ (σ : Store) (sid : Option String) (t : String), t ∈ ORCHESTRATOR_TOOLS →
      Simple.on_call_tool σ sid t = .forward ∧ Scope.on_call_tool σ sid t = .forward) ∧
    (∀ (σ : Store) (sid : Option String) (t : String), t ∉ ORCHESTRATOR_TOOLS →
      sid = none ∨ (∃ s, sid = some s ∧ (s = "" ∨ storeGet σ s = none)) →
      Simple.on_call_tool σ sid t = .rejectNoDomain ∧
      Scope.on_call_tool σ sid t ≠ .forward) := by
  constructor
  · intro σ sid t ht
    constructor
    · simp [Simple.on_call_tool, ht]
    · simp [Scope.on_call_tool, Scope.is_allowed_tool, ht]
  · intro σ sid t ht hcase
    rcases hcase with rfl | ⟨s, rfl, hs⟩
    · constructor
      · simp [Simple.on_call_tool, ht, pyTruthy]
      · simp [Scope.on_call_tool, Scope.is_allowed_tool, ht, pyTruthy]
    · by_cases hs0 : s = ""
      · subst hs0
        have hpt : pyTruthy (some "") = false := by decide
        constructor
        · simp [Simple.on_call_tool, ht, hpt]
        · simp [Scope.on_call_tool, Scope.is_allowed_tool, ht, hpt]
      · have hget : storeGet σ s = none := hs.resolve_left hs0
        have hbeq : (s == "") = false := beq_eq_false_iff_ne.mpr hs0
        have hpt : pyTruthy (some s) = true := by simp [pyTruthy, hbeq]
        have hpo : pyOr (some s) "" = s := by simp [pyOr, hbeq]
        constructor
        · simp [Simple.on_call_tool, ht, hpt, hpo, hget]
        · simp [Scope.on_call_tool, Scope.is_allowed_tool, ht, hpt, hpo, hget]

theorem c5_witness :
    (Simple.on_call_tool [] none "select_domain" = .forward ∧
      Scope.on_call_tool [] none "select_domain" = .forward) ∧
    (Simple.on_call_tool [("other", "users")] (some "s") "invoicing_create_invoice" =
        .rejectNoDomain ∧
      Scope.on_call_tool [("other", "users")] (some "s") "invoicing_create_invoice" ≠
        .forward) :=
  ⟨c5_theorem.1 [] none "select_domain" (by decide),
   c5_theorem.2 [("other", "users")] (some "s") "invoicing_create_invoice" (by decide)
     (Or.inr ⟨"s", rfl, Or.inr (by decide)⟩)⟩

/-- C8: after a successful `select_domain`, `get_session_status` for the same
session reports the selected domain with status `"active"` and the sorted list
of available domains; `get_session_status` is a pure read (in both variants it
returns the store unchanged and the sorted registry keys), and a session with
no selection is reported as `"no_domain_selected"`. -/
theorem c8_theorem :
    (∀ (σ : Store) (c : Ctx) (d : String), d ∈ domainKeys →
      (Simple.select_domain σ c d).1 = .success (effectiveSessionId c) d ∧
      (Simple.get_session_status (Simple.select_domain σ c d).2.1 c).1 =
        { session_id := effectiveSessionId c
          selected_domain := some d
          available_domains := sortStr domainKeys
          status := "active" } ∧
      (Scope.get_session_status (Scope.select_domain σ c d).2.1 c).1.selected_domain =
        some d ∧
      (Scope.get_session_status (Scope.select_domain σ c d).2.1 c).1.status =
        "active") ∧
    (∀ (σ : Store) (c : Ctx),
      (Simple.get_session_status σ c).2 = σ ∧
      (Scope.get_session_status σ c).2 = σ ∧
      (Simple.get_session_status σ c).1.available_domains = sortStr domainKeys ∧
      (Scope.get_session_status σ c).1.available_domains = sortStr domainKeys) ∧
    (∀ (σ : Store) (c : Ctx), storeGet σ (effectiveSessionId c) = none →
      (Simple.get_session_status σ c).1.status = "no_domain_selected" ∧
      (Scope.get_session_status σ c).1.status = "no_domain_selected") := by
  refine ⟨?_, ?_, ?_⟩
  · intro σ c d hd
    have hne : d ≠ "" := ne_empty_of_mem_domainKeys hd
    have hbeq : (d == "") = false := beq_eq_false_iff_ne.mpr hne
    refine ⟨?_, ?_, ?_, ?_⟩
    · simp [Simple.select_domain, hd]
    · simp [Simple.get_session_status, Simple.select_domain, hd,
            storeGet_storeSet_self, pyTruthy, hbeq]
    · simp [Scope.get_session_status, Scope.select_domain, hd, storeGet_storeSet_self]
    · simp [Scope.get_session_status, Scope.select_domain, hd,
            storeGet_storeSet_self, pyTruthy, hbeq]
  · intro σ c
    have hsorted : domainKeys = sortStr domainKeys := by decide
    exact ⟨rfl, rfl, rfl, hsorted⟩
  · intro σ c hget
    constructor
    · simp [Simple.get_session_status, hget, pyTruthy]
    · simp [Scope.get_session_status, hget, pyTruthy]

theorem c8_witness :
    (Simple.get_session_status
        (Simple.select_domain [] ⟨some "a", none⟩ "products").2.1 ⟨some "a", none⟩).1 =
      { session_id := "a"
        selected_domain := some "products"
        available_domains := ["invoicing", "products", "users"]
        status := "active" } ∧
    (Simple.get_session_status [] ⟨some "fresh", none⟩).1.status =
      "no_domain_selected" :=
  ⟨((c8_theorem.1 [] ⟨some "a", none⟩ "products" (by decide)).2.1).trans (by decide),
   (c8_theorem.2.2 [] ⟨some "fresh", none⟩ (by decide)).1⟩

/-- C1 counterexample: with domain `"invoicing"` selected, the operation name
`"invoicing_delete_invoice"` begins with the selected domain followed by the
separator, yet the final gateway's middleware rejects it instead of forwarding
it — authorization there is by membership in the domain's fixed tool table, not
by the prefix rule. -/
theorem c1_counterexample :
    strStartsWith "invoicing_delete_invoice" ("invoicing" ++ "_") = true ∧
    Simple.on_call_tool [("s", "invoicing")] (some "s") "invoicing_delete_invoice" ≠
      .forward := by
  decide

/-- C1 (amended): in the final gateway (`SimpleDomainMiddleware`), a
non-built-in invocation under selected domain `d` is forwarded exactly when the
tool is in `DOMAIN_TOOLS[d]`, and otherwise rejected with the error naming `d`
and the sorted in-scope tool set; in the `DomainScopeMiddleware` variant,
such an invocation is forwarded exactly when its name begins with
`d` followed by `"_"`, and otherwise rejected naming the tool and the selected
domain (without the in-scope set). -/
theorem c1_theorem :
    (∀ (σ : Store) (s d t : String), s ≠ "" → storeGet σ s = some d →
      d ∈ domainKeys → t ∉ ORCHESTRATOR_TOOLS →
      (t ∈ toolsOf d → Simple.on_call_tool σ (some s) t = .forward) ∧
      (t ∉ toolsOf d →
        Simple.on_call_tool σ (some s) t = .rejectNotInScope d (sortStr (toolsOf d)))) ∧
    (∀ (σ : Store) (s d t : String), s ≠ "" → storeGet σ s = some d → d ≠ "" →
      t ∉ ORCHESTRATOR_TOOLS →
      ((Scope.on_call_tool σ (some s) t = .forward) ↔ ∃ r : String, t = d ++ "_" ++ r) ∧
      ((¬ ∃ r : String, t = d ++ "_" ++ r) →
        Scope.on_call_tool σ (some s) t = .rejectScope t d)) := by
  constructor
  · intro σ s d t hs hget hd ht
    have hbeq : (s == "") = false := beq_eq_false_iff_ne.mpr hs
    have hpt : pyTruthy (some s) = true := by simp [pyTruthy, hbeq]
    have hpo : pyOr (some s) "" = s := by simp [pyOr, hbeq]
    have hlookup : domainToolsOf d = some (toolsOf d) := domainToolsOf_eq hd
    constructor
    · intro htm
      simp [Simple.on_call_tool, ht, hpt, hpo, hget, hlookup, htm]
    · intro htm
      simp [Simple.on_call_tool, ht, hpt, hpo, hget, hlookup, htm]
  · intro σ s d t hs hget hd ht
    have hbeq : (s == "") = false := beq_eq_false_iff_ne.mpr hs
    have hbeqd : (d == "") = false := beq_eq_false_iff_ne.mpr hd
    have hpt : pyTruthy (some s) = true := by simp [pyTruthy, hbeq]
    have hpo : pyOr (some s) "" = s := by simp [pyOr, hbeq]
    have hallow : Scope.is_allowed_tool σ t (some s) = strStartsWith t (d ++ "_") := by
      simp [Scope.is_allowed_tool, ht, hpt, hpo, hget, hbeqd]
    have hcall : Scope.on_call_tool σ (some s) t =
        if strStartsWith t (d ++ "_") = true then .forward else .rejectScope t d := by
      simp [Scope.on_call_tool, hallow, hpo, hget]
    have hiff : (Scope.on_call_tool σ (some s) t = .forward) ↔
        strStartsWith t (d ++ "_") = true := by
      rw [hcall]
      by_cases hsw : strStartsWith t (d ++ "_") = true <;> simp [hsw]
    constructor
    · rw [hiff, strStartsWith_iff]
    · intro hne
      rw [hcall, if_neg]
      intro hsw
      obtain ⟨r, hr⟩ := (strStartsWith_iff t (d ++ "_")).mp hsw
      exact hne ⟨r, by rw [hr, String.append_assoc]⟩

theorem c1_witness :
    Simple.on_call_tool [("s", "invoicing")] (some "s") "invoicing_create_invoice" =
      .forward ∧
    Simple.on_call_tool [("s", "invoicing")] (some "s") "products_get_product" =
      .rejectNotInScope "invoicing"
        ["invoicing_create_invoice", "invoicing_get_invoice", "invoicing_pay_invoice"] ∧
    Scope.on_call_tool [("s", "invoicing")] (some "s") "invoicing_refund" = .forward :=
  ⟨(c1_theorem.1 [("s", "invoicing")] "s" "invoicing" "invoicing_create_invoice"
      (by decide) (by decide) (by decide) (by decide)).1 (by decide),
   ((c1_theorem.1 [("s", "invoicing")] "s" "invoicing" "products_get_product"
      (by decide) (by decide) (by decide) (by decide)).2 (by decide)).trans (by decide),
   ((c1_theorem.2 [("s", "invoicing")] "s" "invoicing" "invoicing_refund"
      (by decide) (by decide) (by decide) (by decide)).1).mpr ⟨"refund", by decide⟩⟩

/-- C2 counterexample: the listing is not sorted by qualified name — the final
gateway's middleware preserves the downstream catalog order within the built-in
group, and the `DomainScopeMiddleware` variant does not even place built-ins
first when the downstream catalog interleaves them with domain tools. -/
theorem c2_counterexample :
    Simple.on_list_tools [] none ["select_domain", "list_domains", "get_session_status"] =
      ["select_domain", "list_domains", "get_session_status"] ∧
    sortStr ["select_domain", "list_domains", "get_session_status"] =
      ["get_session_status", "list_domains", "select_domain"] ∧
    (["select_domain", "list_domains", "get_session_status"] : List String) ≠
      ["get_session_status", "list_domains", "select_domain"] ∧
    Scope.on_list_tools [("s", "invoicing")] (some "s")
        ["invoicing_get_invoice", "list_domains"] =
      ["invoicing_get_invoice", "list_domains"] := by
  decide

/-- C2 (amended): the final gateway's listing is the downstream catalog's
built-in entries first, then — when the middleware's session id has a selected
domain — the downstream entries belonging to that domain's tool table, each
group preserving the downstream catalog order (not re-sorted); with no usable
session or no selection, exactly the built-in entries are returned. An entry is
listed iff it is in the downstream catalog and is either a built-in or one of
the selected domain's tools. -/
theorem c2_theorem :
    (∀ (σ : Store) (s d : String) (tools : List String), s ≠ "" →
      storeGet σ s = some d → d ∈ domainKeys →
      Simple.on_list_tools σ (some s) tools =
        tools.filter (fun t => t ∈ ORCHESTRATOR_TOOLS) ++
          tools.filter (fun t => t ∈ toolsOf d) ∧
      (∀ t : String, t ∈ Simple.on_list_tools σ (some s) tools ↔
        t ∈ tools ∧ (t ∈ ORCHESTRATOR_TOOLS ∨ t ∈ toolsOf d))) ∧
    (∀ (σ : Store) (tools : List String) (sid : Option String),
      sid = none ∨ (∃ s, sid = some s ∧ (s = "" ∨ storeGet σ s = none)) →
      Simple.on_list_tools σ sid tools =
        tools.filter (fun t => t ∈ ORCHESTRATOR_TOOLS)) := by
  constructor
  · intro σ s d tools hs hget hd
    have hbeq : (s == "") = false := beq_eq_false_iff_ne.mpr hs
    have hpt : pyTruthy (some s) = true := by simp [pyTruthy, hbeq]
    have hpo : pyOr (some s) "" = s := by simp [pyOr, hbeq]
    have hlookup : domainToolsOf d = some (toolsOf d) := domainToolsOf_eq hd
    have heq : Simple.on_list_tools σ (some s) tools =
        tools.filter (fun t => t ∈ ORCHESTRATOR_TOOLS) ++
          tools.filter (fun t => t ∈ toolsOf d) := by
      simp [Simple.on_list_tools, hpt, hpo, hget, hlookup]
    refine ⟨heq, ?_⟩
    intro t
    rw [heq]
    simp only [List.mem_append, List.mem_filter, decide_eq_true_eq]
    tauto
  · intro σ tools sid hcase
    rcases hcase with rfl | ⟨s, rfl, hs⟩
    · simp [Simple.on_list_tools, pyTruthy]
    · by_cases hs0 : s = ""
      · subst hs0
        have hpt : pyTruthy (some "") = false := by decide
        simp [Simple.on_list_tools, hpt]
      · have hget : storeGet σ s = none := hs.resolve_left hs0
        have hbeq : (s == "") = false := beq_eq_false_iff_ne.mpr hs0
        have hpt : pyTruthy (some s) = true := by simp [pyTruthy, hbeq]
        have hpo : pyOr (some s) "" = s := by simp [pyOr, hbeq]
        simp [Simple.on_list_tools, hpt, hpo, hget]

theorem c2_witness :
    Simple.on_list_tools [("s", "invoicing")] (some "s")
        ["select_domain", "list_domains", "invoicing_get_invoice", "users_get_user"] =
      ["select_domain", "list_domains", "invoicing_get_invoice"] ∧
    Simple.on_list_tools [("s", "invoicing")] none
        ["select_domain", "list_domains", "invoicing_get_invoice", "users_get_user"] =
      ["select_domain", "list_domains"] :=
  ⟨((c2_theorem.1 [("s", "invoicing")] "s" "invoicing"
      ["select_domain", "list_domains", "invoicing_get_invoice", "users_get_user"]
      (by decide) (by decide) (by decide)).1).trans (by decide),
   (c2_theorem.2 [("s", "invoicing")]
      ["select_domain", "list_domains", "invoicing_get_invoice", "users_get_user"]
      none (Or.inl rfl)).trans (by decide)⟩

/-- C3 counterexample: an anonymous `select_domain` (no session or client id)
succeeds and stores the selection under the sentinel key `"default"`, yet an
anonymous catalog listing — whose middleware session id is the raw transport
value, `none`, with no sentinel fallback — still shows only the built-ins, and
an anonymous invocation of the selected domain's tool is rejected. -/
theorem c3_counterexample :
    (Simple.select_domain [] ⟨none, none⟩ "invoicing").1 =
      .success "default" "invoicing" ∧
    (Simple.select_domain [] ⟨none, none⟩ "invoicing").2.1 =
      [("default", "invoicing")] ∧
    Simple.on_list_tools (Simple.select_domain [] ⟨none, none⟩ "invoicing").2.1 none
        ["list_domains", "get_session_status", "select_domain",
         "invoicing_create_invoice", "invoicing_get_invoice", "invoicing_pay_invoice"] =
      ["list_domains", "get_session_status", "select_domain"] ∧
    Simple.on_call_tool (Simple.select_domain [] ⟨none, none⟩ "invoicing").2.1 none
        "invoicing_create_invoice" = .rejectNoDomain := by
  decide

/-- C3 (amended): the built-in tools (`select_domain`, `get_session_status`)
resolve a missing or falsy transport session identifier to the sentinel
`"default"`, so all anonymous callers share one stored selection; the
middleware, however, uses the raw transport session identifier with no sentinel
fallback, so an anonymous catalog listing returns only built-ins and an
anonymous non-built-in invocation is rejected regardless of the store. -/
theorem c3_theorem :
    (∀ c : Ctx, (c.session_id = none ∨ c.session_id = some "") →
      (c.client_id = none ∨ c.client_id = some "") →
      effectiveSessionId c = "default") ∧
    (∀ (σ : Store) (c : Ctx) (d : String), d ∈ domainKeys →
      effectiveSessionId c = "default" →
      (Simple.select_domain σ c d).1 = .success "default" d ∧
      storeGet (Simple.select_domain σ c d).2.1 "default" = some d ∧
      (Simple.get_session_status (Simple.select_domain σ c d).2.1 c).1.selected_domain =
        some d) ∧
    (∀ (σ : Store) (tools : List String) (t : String),
      Simple.on_list_tools σ none tools =
        tools.filter (fun t => t ∈ ORCHESTRATOR_TOOLS) ∧
      (t ∉ ORCHESTRATOR_TOOLS → Simple.on_call_tool σ none t = .rejectNoDomain) ∧
      Scope.on_list_tools σ none tools =
        tools.filter (fun t => t ∈ ORCHESTRATOR_TOOLS) ∧
      (t ∉ ORCHESTRATOR_TOOLS → Scope.on_call_tool σ none t ≠ .forward)) := by
  refine ⟨?_, ?_, ?_⟩
  · intro c h₁ h₂
    rcases h₁ with h₁ | h₁ <;> rcases h₂ with h₂ | h₂ <;>
      simp [effectiveSessionId, pyOr, h₁, h₂]
  · intro σ c d hd hsid
    refine ⟨?_, ?_, ?_⟩
    · simp [Simple.select_domain, hd, hsid]
    · simp [Simple.select_domain, hd, hsid, storeGet_storeSet_self]
    · simp [Simple.get_session_status, Simple.select_domain, hd, hsid,
            storeGet_storeSet_self]
  · intro σ tools t
    refine ⟨?_, ?_, ?_, ?_⟩
    · simp [Simple.on_list_tools, pyTruthy]
    · intro ht
      simp [Simple.on_call_tool, ht, pyTruthy]
    · have : ∀ x, Scope.is_allowed_tool σ x none = decide (x ∈ ORCHESTRATOR_TOOLS) := by
        intro x
        by_cases hx : x ∈ ORCHESTRATOR_TOOLS <;>
          simp [Scope.is_allowed_tool, hx, pyTruthy]
      simp [Scope.on_list_tools, this]
    · intro ht
      simp [Scope.on_call_tool, Scope.is_allowed_tool, ht, pyTruthy]

theorem c3_witness :
    effectiveSessionId ⟨none, some ""⟩ = "default" ∧
    storeGet (Simple.select_domain [] ⟨none, some ""⟩ "users").2.1 "default" =
      some "users" ∧
    Simple.on_call_tool [("default", "users")] none "users_get_user" = .rejectNoDomain :=
  ⟨c3_theorem.1 ⟨none, some ""⟩ (Or.inl rfl) (Or.inr rfl),
   (c3_theorem.2.1 [] ⟨none, some ""⟩ "users" (by decide)
      (c3_theorem.1 ⟨none, some ""⟩ (Or.inl rfl) (Or.inr rfl))).2.1,
   (c3_theorem.2.2 [("default", "users")] [] "users_get_user").2.1 (by decide)⟩

/-- C7 counterexample: in the final gateway a `select_domain` call succeeds and
emits no notification at all, refuting "after every successful select_domain
call ... a capability-list-changed notification is emitted". -/
theorem c7_counterexample :
    (Simple.select_domain [] ⟨some "s", none⟩ "invoicing").1 =
      .success "s" "invoicing" ∧
    (Simple.select_domain [] ⟨some "s", none⟩ "invoicing").2.2 = [] := by
  decide

/-- C7 (amended): in the `DomainScopeMiddleware` variant, the tool-list-changed
notification is emitted exactly when `select_domain` succeeds, and an
`UnknownDomain` rejection emits nothing; the final gateway variant emits no
notification even on success. -/
theorem c7_theorem :
    ∀ (σ : Store) (c : Ctx) (d : String),
      ((Notification.toolListChanged ∈ (Scope.select_domain σ c d).2.2) ↔
        (Scope.select_domain σ c d).1 = .success (effectiveSessionId c) d) ∧
      ((Scope.select_domain σ c d).1 = .unknownDomain d →
        (Scope.select_domain σ c d).2.2 = []) ∧
      (Simple.select_domain σ c d).2.2 = [] := by
  intro σ c d
  by_cases hd : d ∈ domainKeys
  · refine ⟨?_, ?_, ?_⟩
    · simp [Scope.select_domain, hd]
    · intro h
      exfalso
      simp [Scope.select_domain, hd] at h
    · simp [Simple.select_domain, hd]
  · refine ⟨?_, ?_, ?_⟩
    · simp [Scope.select_domain, hd]
    · intro h
      simp [Scope.select_domain, hd]
    · simp [Simple.select_domain, hd]

theorem c7_witness :
    (Scope.select_domain [] ⟨some "s", none⟩ "bogus").2.2 = [] ∧
    Notification.toolListChanged ∈ (Scope.select_domain [] ⟨some "s", none⟩ "users").2.2 :=
  ⟨(c7_theorem [] ⟨some "s", none⟩ "bogus").2.1 (by decide),
   ((c7_theorem [] ⟨some "s", none⟩ "users").1).mpr (by decide)⟩

/-- C6: session isolation — if session `s₁` has selected `d₁` and some other
session has selected a different registry domain `d₂`, then no operation of
`d₂` appears in `s₁`'s catalog listing and every invocation of a `d₂` operation
by `s₁` is rejected, in both middleware variants; moreover each session's
listing and invocation outcomes depend only on that session's own store entry. -/
theorem c6_theorem :
    (∀ (σ : Store) (s₁ d₁ d₂ t : String) (tools : List String),
      s₁ ≠ "" → storeGet σ s₁ = some d₁ →
      d₁ ∈ domainKeys → d₂ ∈ domainKeys → d₁ ≠ d₂ → t ∈ toolsOf d₂ →
      t ∉ Simple.on_list_tools σ (some s₁) tools ∧
      Simple.on_call_tool σ (some s₁) t ≠ .forward ∧
      t ∉ Scope.on_list_tools σ (some s₁) tools ∧
      Scope.on_call_tool σ (some s₁) t ≠ .forward ∧
      (∀ t' : String, strStartsWith t' (d₂ ++ "_") = true →
        Scope.on_call_tool σ (some s₁) t' ≠ .forward ∧
        t' ∉ Scope.on_list_tools σ (some s₁) tools)) ∧
    (∀ (σ σ' : Store) (s : String) (tools : List String),
      storeGet σ s = storeGet σ' s →
      Simple.on_list_tools σ (some s) tools = Simple.on_list_tools σ' (some s) tools ∧
      (∀ t : String,
        Simple.on_call_tool σ (some s) t = Simple.on_call_tool σ' (some s) t) ∧
      Scope.on_list_tools σ (some s) tools = Scope.on_list_tools σ' (some s) tools ∧
      (∀ t : String,
        Scope.on_call_tool σ (some s) t = Scope.on_call_tool σ' (some s) t)) := by
  constructor
  · intro σ s₁ d₁ d₂ t tools hs hget hd₁ hd₂ hne htm
    obtain ⟨hto, htd, hsw⟩ := domain_tools_disjoint d₁ hd₁ d₂ hd₂ hne t htm
    have hbeq : (s₁ == "") = false := beq_eq_false_iff_ne.mpr hs
    have hbeqd : (d₁ == "") = false :=
      beq_eq_false_iff_ne.mpr (ne_empty_of_mem_domainKeys hd₁)
    have hpt : pyTruthy (some s₁) = true := by simp [pyTruthy, hbeq]
    have hpo : pyOr (some s₁) "" = s₁ := by simp [pyOr, hbeq]
    have hlookup : domainToolsOf d₁ = some (toolsOf d₁) := domainToolsOf_eq hd₁
    refine ⟨?_, ?_, ?_, ?_, ?_⟩
    · simp [Simple.on_list_tools, hpt, hpo, hget, hlookup, List.mem_filter, hto, htd]
    · simp [Simple.on_call_tool, hto, hpt, hpo, hget, hlookup, htd]
    · simp [Scope.on_list_tools, List.mem_filter, Scope.is_allowed_tool, hto, hpt,
            hpo, hget, hbeqd, hsw]
    · simp [Scope.on_call_tool, Scope.is_allowed_tool, hto, hpt, hpo, hget, hbeqd, hsw]
    · intro t' hsw'
      have hto' : t' ∉ ORCHESTRATOR_TOOLS := by
        intro hb
        have := builtin_not_qualified d₂ hd₂ t' hb
        rw [hsw'] at this
        exact Bool.noConfusion this
      have hsw₁ : strStartsWith t' (d₁ ++ "_") = false :=
        domain_qualifier_incompat d₁ hd₁ d₂ hd₂ hne t' hsw'
      constructor
      · simp [Scope.on_call_tool, Scope.is_allowed_tool, hto', hpt, hpo, hget,
              hbeqd, hsw₁]
      · simp [Scope.on_list_tools, List.mem_filter, Scope.is_allowed_tool, hto',
              hpt, hpo, hget, hbeqd, hsw₁]
  · intro σ σ' s tools h
    have hpo : pyOr (some s) "" = s := by
      by_cases h0 : s = ""
      · subst h0; decide
      · simp [pyOr, beq_eq_false_iff_ne.mpr h0]
    refine ⟨?_, ?_, ?_, ?_⟩
    · simp [Simple.on_list_tools, hpo, h]
    · intro t
      simp [Simple.on_call_tool, hpo, h]
    · simp [Scope.on_list_tools, Scope.is_allowed_tool, hpo, h]
    · intro t
      simp [Scope.on_call_tool, Scope.is_allowed_tool, hpo, h]

theorem c6_witness :
    ("products_get_product" ∉
      Simple.on_list_tools [("s1", "invoicing"), ("s2", "products")] (some "s1")
        ["list_domains", "invoicing_get_invoice", "products_get_product"]) ∧
    Scope.on_call_tool [("s1", "invoicing"), ("s2", "products")] (some "s1")
        "products_get_product" ≠ .forward ∧
    Simple.on_list_tools [("s1", "invoicing")] (some "s1")
        ["list_domains", "invoicing_get_invoice"] =
      Simple.on_list_tools [("s1", "invoicing"), ("x", "users")] (some "s1")
        ["list_domains", "invoicing_get_invoice"] :=
  ⟨(c6_theorem.1 [("s1", "invoicing"), ("s2", "products")] "s1" "invoicing" "products"
      "products_get_product" ["list_domains", "invoicing_get_invoice", "products_get_product"]
      (by decide) (by decide) (by decide) (by decide) (by decide) (by decide)).1,
   (c6_theorem.1 [("s1", "invoicing"), ("s2", "products")] "s1" "invoicing" "products"
      "products_get_product" ["list_domains", "invoicing_get_invoice", "products_get_product"]
      (by decide) (by decide) (by decide) (by decide) (by decide) (by decide)).2.2.2.1,
   (c6_theorem.2 [("s1", "invoicing")] [("s1", "invoicing"), ("x", "users")] "s1"
      ["list_domains", "invoicing_get_invoice"] (by decide)).1⟩
